import Mathlib

/-!
Shallow embedding of the health-scoring and greeting-generation core of
`src/main.py` (classes `SystemMonitor` and `SmartGreeting`).

Python dict-based records become structures with `Option` fields;
`dict.get(key, default)` becomes `Option.getD`; Python truthiness tests
(`if x:`) on optional numeric fields become explicit present-and-nonzero
tests.  Percentages are modelled as rationals, counts as naturals, the
score as an integer.
-/

namespace SystemReport

/-- Battery sub-record of a report, as built by `get_battery_info`:
`percent` and `plugged` are always set when the record is present
(`plugged` may be `None` from psutil, hence `Option Bool`); the detailed
health fields are merged in only when the platform probe found them. -/
structure BatteryInfo where
  percent : ℚ
  plugged : Option Bool := none
  health_percentage : Option ℚ := none
  health_status : Option String := none
  cycle_count : Option ℕ := none

/-- Storage sub-record (`get_storage_info`); an error marker is a record
with no `percent_used` key, read back with `.get ("percent_used", 0)`. -/
structure StorageInfo where
  percent_used : Option ℚ := none

/-- Memory sub-record (`get_memory_info`). -/
structure MemoryInfo where
  percent_used : Option ℚ := none

/-- Startup sub-record (`get_startup_info`); `uptime_days` comes from
`timedelta.days`, an integer. -/
structure StartupInfo where
  uptime_days : Option Int := none

/-- Drivers sub-record (`check_driver_updates`); `available_updates`
is a non-negative count, absent on an error marker. -/
structure DriversInfo where
  available_updates : Option ℕ := none

/-- The system report dict built by `collect_full_report`, restricted to
the keys the scorer, extractor, greeting composer and tips generator
read.  Every sub-record defaults to the all-absent (error-marker) state,
`battery` to `None`, and `health_score` is the cached score the
orchestrator stores under the `"health_score"` key. -/
structure Report where
  storage : StorageInfo := {}
  memory : MemoryInfo := {}
  startup : StartupInfo := {}
  autostart_programs : List String := []
  battery : Option BatteryInfo := none
  drivers : DriversInfo := {}
  health_score : Option Int := none

/-- Python truthiness of an optional rational field (`if x:`):
the key is present and its value is nonzero. -/
def ratTruthy : Option ℚ → Bool
  | none => false
  | some q => q != 0

/-- Python truthiness of an optional natural-number field (`if x:`):
the key is present and its value is nonzero. -/
def natTruthy : Option ℕ → Bool
  | none => false
  | some n => n != 0

/-- Python truthiness of `battery.get ("plugged")`: `not plugged` holds
exactly when the value is `None` or `False`. -/
def pluggedTruthy (b : BatteryInfo) : Bool := b.plugged.getD false

/-- Storage deduction of `get_system_health_score` (lines 503-507):
`-20` above 90 percent, else `-10` above 80 percent. -/
def storageDeduction (r : Report) : Int :=
  if r.storage.percent_used.getD 0 > 90 then 20
  else if r.storage.percent_used.getD 0 > 80 then 10
  else 0

/-- Memory deduction of `get_system_health_score` (lines 509-513):
`-15` above 90 percent, else `-8` above 80 percent. -/
def memoryDeduction (r : Report) : Int :=
  if r.memory.percent_used.getD 0 > 90 then 15
  else if r.memory.percent_used.getD 0 > 80 then 8
  else 0

/-- Battery charge deduction (line 517): `-10` when the charge is below
20 percent and the battery is not plugged in. -/
def batteryChargeDeduction (b : BatteryInfo) : Int :=
  if b.percent < 20 ∧ pluggedTruthy b = false then 10 else 0

/-- Battery health deduction (lines 520-527).  The source guards the
tier chain with `if health_percentage:`, so a present-but-zero value is
treated like an absent one. -/
def batteryHealthDeduction (b : BatteryInfo) : Int :=
  if ratTruthy b.health_percentage then
    (if b.health_percentage.getD 0 < 50 then 25
     else if b.health_percentage.getD 0 < 70 then 15
     else if b.health_percentage.getD 0 < 80 then 8
     else 0)
  else 0

/-- Battery cycle-count deduction (lines 529-534), again behind a
truthiness guard `if cycle_count:`. -/
def batteryCycleDeduction (b : BatteryInfo) : Int :=
  if natTruthy b.cycle_count then
    (if b.cycle_count.getD 0 > 1000 then 10
     else if b.cycle_count.getD 0 > 500 then 5
     else 0)
  else 0

/-- Total battery deduction (lines 515-534): nothing without a battery
record, otherwise the sum of the three independent sub-deductions. -/
def batteryDeduction (r : Report) : Int :=
  match r.battery with
  | none => 0
  | some b => batteryChargeDeduction b + batteryHealthDeduction b + batteryCycleDeduction b

/-- Uptime deduction (lines 536-538): `-5` beyond 30 days. -/
def uptimeDeduction (r : Report) : Int :=
  if r.startup.uptime_days.getD 0 > 30 then 5 else 0

/-- Driver-updates deduction (lines 540-544): `-15` above 5 pending
updates, else `-5` when any are pending. -/
def driversDeduction (r : Report) : Int :=
  if r.drivers.available_updates.getD 0 > 5 then 15
  else if r.drivers.available_updates.getD 0 > 0 then 5
  else 0

/-- `SystemMonitor.get_system_health_score` (lines 499-546): start at
100, subtract the per-category deductions in source order, clamp at 0
with `max (0, score)`. -/
def get_system_health_score (r : Report) : Int :=
  max 0 (100 - storageDeduction r - memoryDeduction r - batteryDeduction r
    - uptimeDeduction r - driversDeduction r)

/-- The report with every optional sub-record missing (equivalently,
every collector in its error-marker state and no battery). -/
def emptyReport : Report := {}

/-- Storage issues appended by `generate_greeting` (lines 614-619). -/
def storageIssues (r : Report) : List String :=
  if r.storage.percent_used.getD 0 > 90 then ["critically low disk space"]
  else if r.storage.percent_used.getD 0 > 80 then ["limited disk space"]
  else []

/-- Storage suggestions paired with `storageIssues` (lines 614-619). -/
def storageSuggestions (r : Report) : List String :=
  if r.storage.percent_used.getD 0 > 90 then ["free up disk space immediately"]
  else if r.storage.percent_used.getD 0 > 80 then ["consider cleaning up files"]
  else []

/-- Memory issue appended by `generate_greeting` (lines 621-623):
strictly above 85 percent. -/
def memoryIssues (r : Report) : List String :=
  if r.memory.percent_used.getD 0 > 85 then ["high memory usage"] else []

/-- Memory suggestion paired with `memoryIssues` (lines 621-623). -/
def memorySuggestions (r : Report) : List String :=
  if r.memory.percent_used.getD 0 > 85 then ["close unused applications"] else []

/-- Uptime issue appended by `generate_greeting` (lines 625-627); the
issue text interpolates the day count. -/
def uptimeIssues (r : Report) : List String :=
  if r.startup.uptime_days.getD 0 > 14 then
    [toString (r.startup.uptime_days.getD 0) ++ " days uptime"]
  else []

/-- Uptime suggestion paired with `uptimeIssues` (lines 625-627). -/
def uptimeSuggestions (r : Report) : List String :=
  if r.startup.uptime_days.getD 0 > 14 then ["restart your computer soon"] else []

/-- Low-battery issue appended by `generate_greeting` (lines 629-631). -/
def batteryChargeIssues (r : Report) : List String :=
  match r.battery with
  | none => []
  | some b => if b.percent < 20 ∧ pluggedTruthy b = false then ["low battery"] else []

/-- Suggestion paired with `batteryChargeIssues` (lines 629-631). -/
def batteryChargeSuggestions (r : Report) : List String :=
  match r.battery with
  | none => []
  | some b => if b.percent < 20 ∧ pluggedTruthy b = false then ["connect your charger"] else []

/-- Battery-health issue appended by `generate_greeting` (lines 633-643),
behind the truthiness guard `if health_percentage and health_percentage < 70`. -/
def batteryHealthIssues (r : Report) : List String :=
  match r.battery with
  | none => []
  | some b =>
    if ratTruthy b.health_percentage ∧ b.health_percentage.getD 0 < 70 then
      ["battery health at " ++ toString (b.health_percentage.getD 0) ++ "% ("
        ++ b.health_status.getD "unknown" ++ ")"]
    else []

/-- Suggestion paired with `batteryHealthIssues` (lines 637-643): a
replacement below 50 percent health, monitoring otherwise. -/
def batteryHealthSuggestions (r : Report) : List String :=
  match r.battery with
  | none => []
  | some b =>
    if ratTruthy b.health_percentage ∧ b.health_percentage.getD 0 < 70 then
      (if b.health_percentage.getD 0 < 50 then ["consider battery replacement"]
       else ["monitor battery performance"])
    else []

/-- Battery-cycles issue appended by `generate_greeting` (lines 645-647). -/
def batteryCycleIssues (r : Report) : List String :=
  match r.battery with
  | none => []
  | some b =>
    if natTruthy b.cycle_count ∧ b.cycle_count.getD 0 > 800 then
      ["high battery cycles (" ++ toString (b.cycle_count.getD 0) ++ ")"]
    else []

/-- Suggestion paired with `batteryCycleIssues` (lines 645-647). -/
def batteryCycleSuggestions (r : Report) : List String :=
  match r.battery with
  | none => []
  | some b =>
    if natTruthy b.cycle_count ∧ b.cycle_count.getD 0 > 800 then
      ["consider battery maintenance"]
    else []

/-- Driver-updates issue appended by `generate_greeting` (lines 649-652). -/
def driversIssues (r : Report) : List String :=
  if r.drivers.available_updates.getD 0 > 0 then
    [toString (r.drivers.available_updates.getD 0) ++ " driver updates available"]
  else []

/-- Suggestion paired with `driversIssues` (lines 649-652). -/
def driversSuggestions (r : Report) : List String :=
  if r.drivers.available_updates.getD 0 > 0 then ["update your drivers"] else []

/-- The `issues` list built by `generate_greeting` (lines 611-652), in
source append order: storage, memory, uptime, battery charge, battery
health, battery cycles, drivers. -/
def issuesOf (r : Report) : List String :=
  storageIssues r ++ memoryIssues r ++ uptimeIssues r ++ batteryChargeIssues r
    ++ batteryHealthIssues r ++ batteryCycleIssues r ++ driversIssues r

/-- The `suggestions` list built by `generate_greeting` (lines 611-652),
appended in lockstep with `issuesOf`. -/
def suggestionsOf (r : Report) : List String :=
  storageSuggestions r ++ memorySuggestions r ++ uptimeSuggestions r
    ++ batteryChargeSuggestions r ++ batteryHealthSuggestions r
    ++ batteryCycleSuggestions r ++ driversSuggestions r

/-- Time-of-day salutation of `generate_greeting` (lines 589-596).  In
the source the hour is `datetime.now().hour`, read inside the function;
the embedding makes that clock read an explicit parameter. -/
def time_greeting_of (hour : Nat) : String :=
  if 5 ≤ hour ∧ hour < 12 then "Good morning!"
  else if 12 ≤ hour ∧ hour < 17 then "Good afternoon!"
  else if 17 ≤ hour ∧ hour < 21 then "Good evening!"
  else "Hello!"

/-- Health-tier sentence of `generate_greeting` (lines 600-609). -/
def healthSentence (health_score : Int) : String :=
  if health_score ≥ 95 then
    "Your system is running exceptionally well today! Everything looks perfect."
  else if health_score ≥ 85 then
    "Your computer is performing great with excellent system health."
  else if health_score ≥ 70 then
    "Your system is running well, though there might be room for minor improvements."
  else if health_score ≥ 50 then
    "Your computer needs some attention to optimize performance."
  else
    "Your system requires immediate maintenance for better performance."

/-- Issue sentence of `generate_greeting` (lines 654-658): omitted when
there are no issues, a direct sentence for one, a comma list with a
final ", and" for several. -/
def issuesSentence (issues : List String) : List String :=
  if issues.isEmpty then []
  else if issues.length = 1 then ["I noticed " ++ issues.headD "" ++ "."]
  else ["I noticed a few things: " ++ ", ".intercalate issues.dropLast
    ++ ", and " ++ issues.getLastD "" ++ "."]

/-- Suggestion sentence of `generate_greeting` (lines 660-666): omitted
when empty, direct for one, a plain "and" join for exactly two, and an
Oxford-comma list for three or more. -/
def suggestionsSentence (suggestions : List String) : List String :=
  if suggestions.isEmpty then []
  else if suggestions.length = 1 then
    ["I\x27d recommend you " ++ suggestions.headD "" ++ "."]
  else if suggestions.length = 2 then
    ["I\x27d recommend you " ++ suggestions.headD "" ++ " and "
      ++ suggestions.getLastD "" ++ "."]
  else
    ["I\x27d recommend you " ++ ", ".intercalate suggestions.dropLast
      ++ ", and " ++ suggestions.getLastD "" ++ "."]

/-- Closing encouragement of `generate_greeting` (lines 668-669),
appended only when the score is at least 85 and no issue was found. -/
def closingSentence (health_score : Int) (issues : List String) : List String :=
  if health_score ≥ 85 ∧ issues.isEmpty then
    ["Keep up the great work maintaining your system!"]
  else []

/-- The parts of the greeting other than the salutation; they depend
only on the report, never on the clock. -/
def greetingBody (r : Report) : List String :=
  healthSentence (r.health_score.getD 100) :: (issuesSentence (issuesOf r)
    ++ suggestionsSentence (suggestionsOf r)
    ++ closingSentence (r.health_score.getD 100) (issuesOf r))

/-- The `greeting_parts` list of `generate_greeting` (lines 598-669). -/
def greetingParts (hour : Nat) (r : Report) : List String :=
  time_greeting_of hour :: greetingBody r

/-- `SmartGreeting.generate_greeting` (lines 577-671): the parts joined
by single spaces.  The `hour` parameter models the `datetime.now().hour`
read the source performs inside the function (line 586-587). -/
def generate_greeting (hour : Nat) (r : Report) : String :=
  " ".intercalate (greetingParts hour r)

/-- Battery tip of `get_quick_tips` (lines 694-701): the health tip
takes precedence (`elif`) over the cycle-count tip. -/
def batteryTips (r : Report) : List String :=
  match r.battery with
  | none => []
  | some b =>
    if ratTruthy b.health_percentage ∧ b.health_percentage.getD 0 < 80 then
      ["Battery health is at " ++ toString (b.health_percentage.getD 0)
        ++ "% - avoid extreme temperatures and deep discharges."]
    else if natTruthy b.cycle_count ∧ b.cycle_count.getD 0 > 500 then
      ["High battery cycle count - consider calibrating battery or reducing charge cycles."]
    else []

/-- The full `tips` list built by `get_quick_tips` (lines 673-705), in
source order, before truncation. -/
def tipsList (r : Report) : List String :=
  (if r.storage.percent_used.getD 0 > 80 then
    ["Run disk cleanup to free up space - empty trash, clear browser cache, and remove temporary files."]
   else [])
  ++ (if r.memory.percent_used.getD 0 > 80 then
    ["Close unnecessary browser tabs and applications to free up RAM."]
   else [])
  ++ (if r.startup.uptime_days.getD 0 > 7 then
    ["Restart your computer to apply updates and refresh system processes."]
   else [])
  ++ (if r.autostart_programs.length > 10 then
    ["Review your startup programs - disable unnecessary ones to speed up boot time."]
   else [])
  ++ batteryTips r
  ++ (if r.health_score.getD 100 < 80 then
    ["Run a system maintenance routine: update drivers, scan for malware, and clean temporary files."]
   else [])

/-- `SmartGreeting.get_quick_tips` (lines 673-706): the tips list
truncated to its first three entries (`tips [:3]`). -/
def get_quick_tips (r : Report) : List String :=
  (tipsList r).take 3

/-- Report whose storage sits exactly on the 90-percent boundary, all
other fields absent. -/
def c2report : Report := { storage := { percent_used := some 90 } }

/-- Battery at full charge but with a health percentage of exactly 0. -/
def c4battery : BatteryInfo :=
  { percent := 100, plugged := some true, health_percentage := some 0 }

/-- Report containing only `c4battery`. -/
def c4report : Report := { battery := some c4battery }

/-- Battery from the compounding scenario: 15 percent charge, unplugged,
45 percent health, 1200 cycles. -/
def c5battery : BatteryInfo :=
  { percent := 15, plugged := some false, health_percentage := some 45,
    cycle_count := some 1200 }

/-- Report containing only `c5battery`. -/
def c5report : Report := { battery := some c5battery }

/-- Report with memory at 83 percent: above the scorer's 80-percent
tier but below the extractor's 85-percent issue threshold. -/
def c6report : Report := { memory := { percent_used := some 83 } }

/-- Report on which all six tip conditions of `get_quick_tips` hold
simultaneously: storage 85 > 80, memory 85 > 80, uptime 8 > 7 days,
11 > 10 autostart programs, battery health 75 < 80, score 70 < 80. -/
def c9report : Report :=
  { storage := { percent_used := some 85 }
    memory := { percent_used := some 85 }
    startup := { uptime_days := some 8 }
    autostart_programs := ["p1", "p2", "p3", "p4", "p5", "p6", "p7", "p8", "p9", "p10", "p11"]
    battery := some { percent := 50, plugged := some true, health_percentage := some 75,
                      cycle_count := some 600 }
    drivers := {}
    health_score := some 70 }

/-! Helper lemmas shared by the claim theorems. -/

/-- Two strings with different first characters are different. -/
theorem ne_of_head {s t : String} {c d : Char} (hs : s.data.head? = some c)
    (ht : t.data.head? = some d) (hcd : c ≠ d) : s ≠ t := by
  intro h
  rw [h, ht] at hs
  exact hcd (Option.some.inj hs).symm

/-- The accumulator of `String.intercalate.go` distributes over a left
append. -/
theorem intercalate_go_append (s acc₁ : String) :
    ∀ (xs : List String) (acc₂ : String), String.intercalate.go (acc₁ ++ acc₂) s xs
      = acc₁ ++ String.intercalate.go acc₂ s xs := by
  intro xs
  induction xs with
  | nil => intro acc₂; rfl
  | cons a as ih =>
    intro acc₂
    show String.intercalate.go (acc₁ ++ acc₂ ++ s ++ a) s as = _
    rw [String.append_assoc acc₁ acc₂ s, String.append_assoc acc₁ (acc₂ ++ s) a, ih]
    rfl

/-- Unfolding of `String.intercalate` on a list with at least two
elements. -/
theorem intercalate_cons (s a b : String) (xs : List String) :
    String.intercalate s (a :: b :: xs) = a ++ s ++ String.intercalate s (b :: xs) :=
  intercalate_go_append s (a ++ s) xs b

/-- The storage deduction is never negative. -/
theorem storageDeduction_nonneg (r : Report) : 0 ≤ storageDeduction r := by
  unfold storageDeduction; split_ifs <;> norm_num

/-- The memory deduction is never negative. -/
theorem memoryDeduction_nonneg (r : Report) : 0 ≤ memoryDeduction r := by
  unfold memoryDeduction; split_ifs <;> norm_num

/-- The battery deduction is never negative. -/
theorem batteryDeduction_nonneg (r : Report) : 0 ≤ batteryDeduction r := by
  unfold batteryDeduction
  cases r.battery with
  | none => norm_num
  | some b =>
    dsimp only
    have h1 : 0 ≤ batteryChargeDeduction b := by
      unfold batteryChargeDeduction; split_ifs <;> norm_num
    have h2 : 0 ≤ batteryHealthDeduction b := by
      unfold batteryHealthDeduction; split_ifs <;> norm_num
    have h3 : 0 ≤ batteryCycleDeduction b := by
      unfold batteryCycleDeduction; split_ifs <;> norm_num
    omega

/-- The uptime deduction is never negative. -/
theorem uptimeDeduction_nonneg (r : Report) : 0 ≤ uptimeDeduction r := by
  unfold uptimeDeduction; split_ifs <;> norm_num

/-- The drivers deduction is never negative. -/
theorem driversDeduction_nonneg (r : Report) : 0 ≤ driversDeduction r := by
  unfold driversDeduction; split_ifs <;> norm_num

/-- Claim C1: for every well-formed snapshot the score lies in [0,100],
and a snapshot with every optional sub-record missing (or all error
markers, which read back as the same absent fields) scores exactly
100 without any failure. -/
theorem C1_score_in_range :
    (∀ r : Report, 0 ≤ get_system_health_score r ∧ get_system_health_score r ≤ 100)
      ∧ get_system_health_score emptyReport = 100 := by
  refine ⟨fun r => ⟨le_max_left 0 _, ?_⟩, rfl⟩
  have h1 := storageDeduction_nonneg r
  have h2 := memoryDeduction_nonneg r
  have h3 := batteryDeduction_nonneg r
  have h4 := batteryDeduction_nonneg r
  have h5 := uptimeDeduction_nonneg r
  have h6 := driversDeduction_nonneg r
  unfold get_system_health_score
  omega

/-- Claim C2, counterexample: with storage at exactly 90 percent the
scorer does apply a storage deduction (the strict `> 80` tier fires),
so the score is 90, not 100. -/
theorem C2_counterexample :
    get_system_health_score c2report = 90 ∧ storageDeduction c2report ≠ 0 := by
  constructor <;> decide

/-- Claim C2, amended: with storage percentUsed exactly 90 the `> 90`
tier does not fire (strict comparison) but the `> 80` tier does, so the
storage deduction is exactly 10. -/
theorem C2_storage_at_90 (r : Report) (h : r.storage.percent_used = some 90) :
    storageDeduction r = 10 := by
  unfold storageDeduction
  rw [h]
  norm_num

/-- Witness for `C2_storage_at_90` at the concrete boundary report. -/
theorem C2_storage_at_90_witness : storageDeduction c2report = 10 :=
  C2_storage_at_90 c2report rfl

/-- Claim C3, counterexample: `generate_greeting` reads the clock
internally (`datetime.now().hour`, modelled as the `hour` argument), so
two calls on the identical snapshot at different times of day yield
different greetings. -/
theorem C3_counterexample :
    generate_greeting 8 emptyReport ≠ generate_greeting 13 emptyReport := by
  decide

/-- Claim C3, amended: the scorer and extractor are pure functions of
the snapshot, and the greeting is a pure function of the snapshot and
the internally read hour; the hour influences only the leading
salutation, every part after it depending on the snapshot alone. -/
theorem C3_hour_affects_salutation_only (hour : Nat) (r : Report) :
    generate_greeting hour r
      = time_greeting_of hour ++ " " ++ " ".intercalate (greetingBody r) := by
  unfold generate_greeting greetingParts greetingBody
  rw [intercalate_cons]

/-- Claim C4, counterexample: a battery with healthPercentage exactly 0
gets no battery-health deduction at all, because the source guards the
tier chain with the truthiness test `if health_percentage:`; the claim
predicted a deduction of 25 (score 75). -/
theorem C4_counterexample :
    batteryHealthDeduction c4battery = 0 ∧ get_system_health_score c4report = 100 := by
  constructor <;> decide

/-- Claim C4, amended: when healthPercentage is present, nonzero and
below 50 the scorer deducts exactly 25; an absent healthPercentage, or
one equal to 0 (falsy, treated like absent), contributes zero. -/
theorem C4_health_deduction :
    (∀ (b : BatteryInfo) (hp : ℚ), b.health_percentage = some hp → hp ≠ 0 → hp < 50 →
        batteryHealthDeduction b = 25)
  ∧ (∀ b : BatteryInfo, b.health_percentage = none ∨ b.health_percentage = some 0 →
        batteryHealthDeduction b = 0) := by
  constructor
  · intro b hp hpres hne hlt
    unfold batteryHealthDeduction
    rw [hpres]
    simp [ratTruthy, hne, hlt]
  · intro b hb
    unfold batteryHealthDeduction
    rcases hb with hb | hb <;> rw [hb] <;> simp [ratTruthy]

/-- Witness for `C4_health_deduction` at healthPercentage 45 and 0. -/
theorem C4_health_deduction_witness :
    batteryHealthDeduction { percent := 50, health_percentage := some 45 } = 25
  ∧ batteryHealthDeduction { percent := 50, health_percentage := some 0 } = 0 :=
  ⟨C4_health_deduction.1 _ 45 rfl (by norm_num) (by norm_num),
   C4_health_deduction.2 _ (Or.inr rfl)⟩

/-- Claim C5, counterexample: the snapshot with battery percent 15
unplugged, healthPercentage 45 and cycleCount 1200 scores 55, not the
65 stated by the claim (its own deductions sum to 45, not 35). -/
theorem C5_counterexample :
    get_system_health_score c5report = 55 ∧ get_system_health_score c5report ≠ 65 := by
  constructor <;> decide

/-- Claim C5, amended: the three battery deductions are additive with
each other; on that snapshot they are 10, 25 and 10, giving score
100 - 10 - 25 - 10 = 55. -/
theorem C5_battery_deductions_additive :
    batteryChargeDeduction c5battery = 10
  ∧ batteryHealthDeduction c5battery = 25
  ∧ batteryCycleDeduction c5battery = 10
  ∧ batteryDeduction c5report = 10 + 25 + 10
  ∧ get_system_health_score c5report = 100 - 10 - 25 - 10 := by
  refine ⟨by decide, by decide, by decide, by decide, by decide⟩

/-- The uptime issue text never collides with the memory issue text. -/
theorem uptime_issue_ne_hmu (x : String) : x ++ " days uptime" ≠ "high memory usage" := by
  intro h
  have hlen := congrArg String.length h
  have e1 : (" days uptime" : String).length = 12 := rfl
  have e4 : ("high memory usage" : String).length = 17 := rfl
  rw [String.length_append, e1, e4] at hlen
  have hxd : x.data.length = 5 := by
    have hx : x.length = 5 := by omega
    exact hx
  have hdata := congrArg String.data h
  simp only [String.data_append] at hdata
  have hdrop := congrArg (List.drop 5) hdata
  rw [List.drop_left' hxd] at hdrop
  exact absurd hdrop (by decide)

/-- The memory issue text is not produced by the storage branch. -/
theorem hmu_not_mem_storage (r : Report) : "high memory usage" ∉ storageIssues r := by
  unfold storageIssues; split_ifs <;> decide

/-- The memory branch emits its issue exactly above 85 percent. -/
theorem hmu_mem_memory (r : Report) :
    "high memory usage" ∈ memoryIssues r ↔ r.memory.percent_used.getD 0 > 85 := by
  unfold memoryIssues; split_ifs with h <;> simp [h]

/-- The memory issue text is not produced by the uptime branch. -/
theorem hmu_not_mem_uptime (r : Report) : "high memory usage" ∉ uptimeIssues r := by
  unfold uptimeIssues
  split_ifs <;> simp only [List.mem_singleton, List.not_mem_nil, not_false_iff]
  intro h
  exact uptime_issue_ne_hmu _ h.symm

/-- The memory issue text is not produced by the battery-charge branch. -/
theorem hmu_not_mem_batteryCharge (r : Report) :
    "high memory usage" ∉ batteryChargeIssues r := by
  unfold batteryChargeIssues
  cases r.battery with
  | none => exact List.not_mem_nil _
  | some b => dsimp only; split_ifs <;> decide

/-- The memory issue text is not produced by the battery-health branch
(its text is strictly longer). -/
theorem hmu_not_mem_batteryHealth (r : Report) :
    "high memory usage" ∉ batteryHealthIssues r := by
  unfold batteryHealthIssues
  cases r.battery with
  | none => exact List.not_mem_nil _
  | some b =>
    dsimp only
    split_ifs <;> simp only [List.mem_singleton, List.not_mem_nil, not_false_iff]
    intro h
    have h2 := congrArg String.length h.symm
    have e1 : ("battery health at " : String).length = 18 := rfl
    have e2 : ("% (" : String).length = 3 := rfl
    have e3 : (")" : String).length = 1 := rfl
    have e4 : ("high memory usage" : String).length = 17 := rfl
    simp only [String.length_append, e1, e2, e3, e4] at h2
    omega

/-- The memory issue text is not produced by the battery-cycles branch
(its text is strictly longer). -/
theorem hmu_not_mem_batteryCycle (r : Report) :
    "high memory usage" ∉ batteryCycleIssues r := by
  unfold batteryCycleIssues
  cases r.battery with
  | none => exact List.not_mem_nil _
  | some b =>
    dsimp only
    split_ifs <;> simp only [List.mem_singleton, List.not_mem_nil, not_false_iff]
    intro h
    have h2 := congrArg String.length h.symm
    have e1 : ("high battery cycles (" : String).length = 21 := rfl
    have e3 : (")" : String).length = 1 := rfl
    have e4 : ("high memory usage" : String).length = 17 := rfl
    simp only [String.length_append, e1, e3, e4] at h2
    omega

/-- The memory issue text is not produced by the drivers branch (its
text is strictly longer). -/
theorem hmu_not_mem_drivers (r : Report) : "high memory usage" ∉ driversIssues r := by
  unfold driversIssues
  split_ifs <;> simp only [List.mem_singleton, List.not_mem_nil, not_false_iff]
  intro h
  have h2 := congrArg String.length h.symm
  have e1 : (" driver updates available" : String).length = 25 := rfl
  have e4 : ("high memory usage" : String).length = 17 := rfl
  simp only [String.length_append, e1, e4] at h2
  omega

/-- The memory suggestion text is not produced by any other branch. -/
theorem cua_not_mem_others (r : Report) :
    "close unused applications" ∉ storageSuggestions r
  ∧ "close unused applications" ∉ uptimeSuggestions r
  ∧ "close unused applications" ∉ batteryChargeSuggestions r
  ∧ "close unused applications" ∉ batteryHealthSuggestions r
  ∧ "close unused applications" ∉ batteryCycleSuggestions r
  ∧ "close unused applications" ∉ driversSuggestions r := by
  refine ⟨?_, ?_, ?_, ?_, ?_, ?_⟩
  · unfold storageSuggestions; split_ifs <;> decide
  · unfold uptimeSuggestions; split_ifs <;> decide
  · unfold batteryChargeSuggestions
    cases r.battery with
    | none => exact List.not_mem_nil _
    | some b => dsimp only; split_ifs <;> decide
  · unfold batteryHealthSuggestions
    cases r.battery with
    | none => exact List.not_mem_nil _
    | some b => dsimp only; split_ifs <;> decide
  · unfold batteryCycleSuggestions
    cases r.battery with
    | none => exact List.not_mem_nil _
    | some b => dsimp only; split_ifs <;> decide
  · unfold driversSuggestions; split_ifs <;> decide

/-- The memory branch emits its suggestion exactly above 85 percent. -/
theorem cua_mem_memory (r : Report) :
    "close unused applications" ∈ memorySuggestions r ↔ r.memory.percent_used.getD 0 > 85 := by
  unfold memorySuggestions; split_ifs with h <;> simp [h]

/-- Claim C6: the "high memory usage" issue, paired with the
"close unused applications" suggestion, is emitted exactly when memory
percentUsed > 85; and at 83 percent the scorer already deducts 8 while
the extractor emits nothing, so the 85 threshold is genuinely distinct
from the scorer's 80/90 tiers. -/
theorem C6_memory_issue_threshold :
    (∀ r : Report, "high memory usage" ∈ issuesOf r ↔ r.memory.percent_used.getD 0 > 85)
  ∧ (∀ r : Report,
      "close unused applications" ∈ suggestionsOf r ↔ r.memory.percent_used.getD 0 > 85)
  ∧ (memoryDeduction c6report = 8 ∧ issuesOf c6report = []) := by
  refine ⟨?_, ?_, by decide, by decide⟩
  · intro r
    have h1 := hmu_not_mem_storage r
    have h3 := hmu_not_mem_uptime r
    have h4 := hmu_not_mem_batteryCharge r
    have h5 := hmu_not_mem_batteryHealth r
    have h6 := hmu_not_mem_batteryCycle r
    have h7 := hmu_not_mem_drivers r
    simp only [issuesOf, List.mem_append, hmu_mem_memory]
    simp [h1, h3, h4, h5, h6, h7]
  · intro r
    obtain ⟨g1, g3, g4, g5, g6, g7⟩ := cua_not_mem_others r
    simp only [suggestionsOf, List.mem_append, cua_mem_memory]
    simp [g1, g3, g4, g5, g6, g7]

/-- The closing sentence never coincides with the salutation. -/
theorem closing_ne_time_greeting (hr : Nat) :
    "Keep up the great work maintaining your system!" ≠ time_greeting_of hr := by
  unfold time_greeting_of; split_ifs <;> decide

/-- The closing sentence never coincides with the health-tier sentence. -/
theorem closing_ne_healthSentence (s : Int) :
    "Keep up the great work maintaining your system!" ≠ healthSentence s := by
  unfold healthSentence; split_ifs <;> decide

/-- The closing sentence never appears inside the issues sentence. -/
theorem closing_not_mem_issuesSentence (xs : List String) :
    "Keep up the great work maintaining your system!" ∉ issuesSentence xs := by
  unfold issuesSentence
  split_ifs <;> simp only [List.mem_singleton, List.not_mem_nil, not_false_iff] <;>
    intro h <;> exact absurd h.symm (ne_of_head (c := 'I') (d := 'K') rfl rfl (by decide))

/-- The closing sentence never appears inside the suggestions
sentence. -/
theorem closing_not_mem_suggestionsSentence (xs : List String) :
    "Keep up the great work maintaining your system!" ∉ suggestionsSentence xs := by
  unfold suggestionsSentence
  split_ifs <;> simp only [List.mem_singleton, List.not_mem_nil, not_false_iff] <;>
    intro h <;> exact absurd h.symm (ne_of_head (c := 'I') (d := 'K') rfl rfl (by decide))

/-- Membership of the closing sentence in its own slot is exactly the
source condition `health_score >= 85 and not issues`. -/
theorem closing_mem_closingSentence (s : Int) (xs : List String) :
    "Keep up the great work maintaining your system!" ∈ closingSentence s xs
      ↔ s ≥ 85 ∧ xs = [] := by
  unfold closingSentence
  split_ifs with h
  · simp only [List.mem_singleton, eq_self_iff_true, true_iff]
    exact ⟨h.1, List.isEmpty_iff.mp h.2⟩
  · simp only [List.not_mem_nil, false_iff]
    intro hc
    exact h ⟨hc.1, List.isEmpty_iff.mpr hc.2⟩

/-- Claim C7: the closing encouragement sentence appears among the
greeting parts if and only if the health score is at least 85 and the
issues list is empty; in particular it is absent whenever the score is
85 but an issue exists. -/
theorem C7_closing_iff (hour : Nat) (r : Report) :
    "Keep up the great work maintaining your system!" ∈ greetingParts hour r
      ↔ r.health_score.getD 100 ≥ 85 ∧ issuesOf r = [] := by
  have h1 := closing_ne_time_greeting hour
  have h2 := closing_ne_healthSentence (r.health_score.getD 100)
  have h3 := closing_not_mem_issuesSentence (issuesOf r)
  have h4 := closing_not_mem_suggestionsSentence (suggestionsOf r)
  simp only [greetingParts, greetingBody, List.mem_cons, List.mem_append,
    closing_mem_closingSentence]
  simp [h1, h2, h3, h4]

/-- Claim C8: list joining is format-exact by length.  One issue renders
directly, two or more use the "a few things" preamble with ", and"
before the last; one suggestion renders directly, exactly two are joined
by a plain " and ", three or more use the Oxford-comma list; and the
two-suggestion rendering differs from the Oxford rendering of the same
two items. -/
theorem C8_joining_format :
    (∀ a : String, issuesSentence [a] = ["I noticed " ++ a ++ "."])
  ∧ (∀ xs : List String, 2 ≤ xs.length →
      issuesSentence xs = ["I noticed a few things: " ++ ", ".intercalate xs.dropLast
        ++ ", and " ++ xs.getLastD "" ++ "."])
  ∧ (∀ a b : String,
      suggestionsSentence [a, b] = ["I\x27d recommend you " ++ a ++ " and " ++ b ++ "."])
  ∧ (∀ xs : List String, 3 ≤ xs.length →
      suggestionsSentence xs = ["I\x27d recommend you " ++ ", ".intercalate xs.dropLast
        ++ ", and " ++ xs.getLastD "" ++ "."])
  ∧ (∀ a b : String,
      suggestionsSentence [a, b] ≠ ["I\x27d recommend you " ++ a ++ ", and " ++ b ++ "."]) := by
  refine ⟨?_, ?_, ?_, ?_, ?_⟩
  · intro a
    simp [issuesSentence]
  · intro xs h
    rcases xs with _ | ⟨a, xs⟩
    · simp at h
    rcases xs with _ | ⟨b, xs⟩
    · simp at h
    simp [issuesSentence]
  · intro a b
    simp [suggestionsSentence]
  · intro xs h
    rcases xs with _ | ⟨a, xs⟩
    · simp at h
    rcases xs with _ | ⟨b, xs⟩
    · simp at h
    rcases xs with _ | ⟨c, xs⟩
    · simp at h
    simp [suggestionsSentence]
  · intro a b h
    have h2 : ("I\x27d recommend you " ++ a ++ " and " ++ b ++ "." : String)
        = "I\x27d recommend you " ++ a ++ ", and " ++ b ++ "." := by
      simpa [suggestionsSentence] using h
    have hdata := congrArg String.data h2
    simp only [String.data_append, List.append_assoc] at hdata
    rw [List.append_right_inj, List.append_right_inj] at hdata
    exact absurd hdata (by simp)

/-- Witness for `C8_joining_format` on concrete two- and three-element
lists. -/
theorem C8_joining_format_witness :
    issuesSentence ["a", "b"] = ["I noticed a few things: "
      ++ ", ".intercalate (["a", "b"].dropLast) ++ ", and " ++ ["a", "b"].getLastD "" ++ "."]
  ∧ suggestionsSentence ["x", "y", "z"] = ["I\x27d recommend you "
      ++ ", ".intercalate (["x", "y", "z"].dropLast) ++ ", and "
      ++ ["x", "y", "z"].getLastD "" ++ "."] :=
  ⟨C8_joining_format.2.1 ["a", "b"] (by decide),
   C8_joining_format.2.2.2.1 ["x", "y", "z"] (by decide)⟩

/-- Claim C9: `get_quick_tips` never returns more than 3 tips; on a
report where all six tip conditions hold it returns exactly the first
three tips in the fixed evaluation order (storage, memory, uptime),
truncating the other three matches. -/
theorem C9_tips_capped :
    (∀ r : Report, (get_quick_tips r).length ≤ 3)
  ∧ (tipsList c9report).length = 6
  ∧ get_quick_tips c9report =
      ["Run disk cleanup to free up space - empty trash, clear browser cache, and remove temporary files.",
       "Close unnecessary browser tabs and applications to free up RAM.",
       "Restart your computer to apply updates and refresh system processes."] := by
  refine ⟨?_, by decide, by decide⟩
  intro r
  unfold get_quick_tips
  simp [List.length_take]

/-- The storage branch appends issues and suggestions in lockstep. -/
theorem storage_pair_length (r : Report) :
    (storageIssues r).length = (storageSuggestions r).length := by
  unfold storageIssues storageSuggestions; split_ifs <;> rfl

/-- The memory branch appends issues and suggestions in lockstep. -/
theorem memory_pair_length (r : Report) :
    (memoryIssues r).length = (memorySuggestions r).length := by
  unfold memoryIssues memorySuggestions; split_ifs <;> rfl

/-- The uptime branch appends issues and suggestions in lockstep. -/
theorem uptime_pair_length (r : Report) :
    (uptimeIssues r).length = (uptimeSuggestions r).length := by
  unfold uptimeIssues uptimeSuggestions; split_ifs <;> rfl

/-- The battery-charge branch appends issues and suggestions in
lockstep. -/
theorem batteryCharge_pair_length (r : Report) :
    (batteryChargeIssues r).length = (batteryChargeSuggestions r).length := by
  unfold batteryChargeIssues batteryChargeSuggestions
  cases r.battery with
  | none => rfl
  | some b => dsimp only; split_ifs <;> rfl

/-- The battery-health branch appends issues and suggestions in
lockstep (one suggestion is chosen either way). -/
theorem batteryHealth_pair_length (r : Report) :
    (batteryHealthIssues r).length = (batteryHealthSuggestions r).length := by
  unfold batteryHealthIssues batteryHealthSuggestions
  cases r.battery with
  | none => rfl
  | some b => dsimp only; split_ifs <;> rfl

/-- The battery-cycles branch appends issues and suggestions in
lockstep. -/
theorem batteryCycle_pair_length (r : Report) :
    (batteryCycleIssues r).length = (batteryCycleSuggestions r).length := by
  unfold batteryCycleIssues batteryCycleSuggestions
  cases r.battery with
  | none => rfl
  | some b => dsimp only; split_ifs <;> rfl

/-- The drivers branch appends issues and suggestions in lockstep. -/
theorem drivers_pair_length (r : Report) :
    (driversIssues r).length = (driversSuggestions r).length := by
  unfold driversIssues driversSuggestions; split_ifs <;> rfl

/-- Claim C10: for every snapshot the extracted issues and suggestions
lists have the same length (every branch appends exactly one of each),
hence one is empty exactly when the other is. -/
theorem C10_issues_suggestions_paired (r : Report) :
    (issuesOf r).length = (suggestionsOf r).length
      ∧ ((issuesOf r) = [] ↔ (suggestionsOf r) = []) := by
  have hlen : (issuesOf r).length = (suggestionsOf r).length := by
    unfold issuesOf suggestionsOf
    simp [List.length_append, storage_pair_length, memory_pair_length, uptime_pair_length,
      batteryCharge_pair_length, batteryHealth_pair_length, batteryCycle_pair_length,
      drivers_pair_length]
  refine ⟨hlen, ?_⟩
  simp only [← List.length_eq_zero, hlen]

end SystemReport
